import Mathlib

set_option maxRecDepth 100000

/-!
Shallow embedding of the PNG decoder of the repository `png-editor`
(`src/png_decoder.h` together with the decoder translation unit
`src/unnamed/part_002`, which is the variant whose definitions match the
declarations of `png_decoder.h`; where the stale variant
`src/png_decoder.c` diverges, the divergence is noted in the comments).

Bytes are modelled as `Nat` values (kept below 256 by the byte sources);
C `uint32` arithmetic is modelled as `Nat` with an explicit
`% 4294967296` wherever the C computation can wrap.  Heap buffers are
`List Nat`; an out-parameter that is `NULL` on some path is modelled with
`Option`.  Fallible functions return `Option`; `none` corresponds to the
C function returning 0 with its out-parameters cleared, as the C code
does on every failure path.
-/

namespace PngEditor

/-- Modulus of C `uint32` arithmetic. -/
def U32 : Nat := 4294967296

/-- Big-endian 32-bit read, `read_uint32_be` of the source: reads the four
bytes at offset `off` of `data`. -/
def read_uint32_be (data : List Nat) (off : Nat) : Nat :=
  (data.getD off 0 <<< 24) ||| (data.getD (off + 1) 0 <<< 16) |||
    (data.getD (off + 2) 0 <<< 8) ||| data.getD (off + 3) 0

/-- One step of the CRC-table construction of `png_crc32`:
`c = (c & 1) ? (0xEDB88320 ^ (c >> 1)) : (c >> 1)`. -/
def crcStep (c : Nat) : Nat :=
  if c % 2 = 1 then Nat.xor 0xEDB88320 (c >>> 1) else c >>> 1

/-- Entry `i` of the lazily built 256-entry CRC table of `png_crc32`
(eight `crcStep` iterations on `i`). -/
def crc_table (i : Nat) : Nat :=
  crcStep^[8] i

/-- The byte loop of `png_crc32`:
`crc = crc_table[(crc ^ buf[i]) & 0xFF] ^ (crc >> 8)`. -/
def crcLoop (crc : Nat) (buf : List Nat) : Nat :=
  buf.foldl (fun c b => Nat.xor (crc_table (Nat.xor c b % 256)) (c >>> 8)) crc

/-- The source's `png_crc32`: pre- and post-conditioning with
`0xFFFFFFFF` around the table-driven byte loop. -/
def png_crc32 (crc : Nat) (buf : List Nat) : Nat :=
  Nat.xor (crcLoop (Nat.xor crc 0xFFFFFFFF) buf) 0xFFFFFFFF

/-- The eight PNG signature octets compared by `png_validate_signature`. -/
def PNG_SIGNATURE : List Nat := [0x89, 0x50, 0x4E, 0x47, 0x0D, 0x0A, 0x1A, 0x0A]

/-- The source's `png_validate_signature`: the first 8 octets of the byte
source must equal `PNG_SIGNATURE`. -/
def png_validate_signature (file : List Nat) : Bool :=
  decide (8 ≤ file.length) && decide (file.take 8 = PNG_SIGNATURE)

/-- The `MAX_CHUNK_LENGTH` cap of `png_decoder.h`: 100 MiB. -/
def MAX_CHUNK_LENGTH : Nat := 100 * 1024 * 1024

def PNG_CHUNK_IHDR : Nat := 0x49484452
def PNG_CHUNK_IDAT : Nat := 0x49444154
def PNG_CHUNK_IEND : Nat := 0x49454E44
def PNG_CHUNK_PLTE : Nat := 0x504C5445
def PNG_CHUNK_tRNS : Nat := 0x74524E53

/-- The `PNG_Chunk` struct of `png_decoder.h`: `data` is the payload
buffer (its pointer is `NULL` exactly when the list is empty and
`length = 0`, as established by `png_read_chunk`). -/
structure PNG_Chunk where
  length : Nat
  type : Nat
  data : List Nat
  crc : Nat
deriving DecidableEq, Repr

/-- The all-zero `PNG_Chunk`, the value `memset(chunk, 0, sizeof *chunk)`
produces. -/
def zeroChunk : PNG_Chunk := ⟨0, 0, [], 0⟩

/-- The source's `png_read_chunk`, on a byte stream.  The result is the
C function's return value, the out-parameter chunk (which the C code
zeroes on entry and re-zeroes, after freeing any payload, on every
failure path) and the unread remainder of the stream. -/
def png_read_chunk (file : List Nat) : Bool × PNG_Chunk × List Nat :=
  -- 1. read the 4 length octets
  if file.length < 4 then (false, zeroChunk, file.drop 4)
  else
    let length := read_uint32_be (file.take 4) 0
    let rest := file.drop 4
    -- 2. length cap
    if MAX_CHUNK_LENGTH < length then (false, zeroChunk, rest)
    -- 3. read the 4 type octets
    else if rest.length < 4 then (false, zeroChunk, rest.drop 4)
    else
      let type_buf := rest.take 4
      let ctype := read_uint32_be type_buf 0
      let rest2 := rest.drop 4
      -- 4. read the payload
      if rest2.length < length then (false, zeroChunk, rest2.drop length)
      else
        let cdata := rest2.take length
        let rest3 := rest2.drop length
        -- 5. read and verify the CRC
        if rest3.length < 4 then (false, zeroChunk, rest3.drop 4)
        else
          let crc := read_uint32_be (rest3.take 4) 0
          let rest4 := rest3.drop 4
          let calculated :=
            if cdata = [] then png_crc32 0 type_buf
            else png_crc32 (png_crc32 0 type_buf) cdata
          if calculated ≠ crc then (false, zeroChunk, rest4)
          else (true, ⟨length, ctype, cdata, crc⟩, rest4)

/-- The `PNG_IHDR` struct of `png_decoder.h`. -/
structure PNG_IHDR where
  width : Nat
  height : Nat
  bit_depth : Nat
  color_type : Nat
  compression_method : Nat
  filter_method : Nat
  interlace_method : Nat
deriving DecidableEq, Repr

/-- Field extraction of `png_parse_ihdr` from the 13-octet payload. -/
def ihdrOf (c : PNG_Chunk) : PNG_IHDR :=
  { width := read_uint32_be c.data 0
    height := read_uint32_be c.data 4
    bit_depth := c.data.getD 8 0
    color_type := c.data.getD 9 0
    compression_method := c.data.getD 10 0
    filter_method := c.data.getD 11 0
    interlace_method := c.data.getD 12 0 }

/-- The colour-type / bit-depth switch of `png_parse_ihdr`, one branch
per `case` of the C `switch`. -/
def colorDepthOk (color_type bit_depth : Nat) : Bool :=
  if color_type = 0 then
    decide (bit_depth = 1 ∨ bit_depth = 2 ∨ bit_depth = 4 ∨ bit_depth = 8 ∨ bit_depth = 16)
  else if color_type = 2 then
    decide (bit_depth = 8 ∨ bit_depth = 16)
  else if color_type = 3 then
    decide (bit_depth = 1 ∨ bit_depth = 2 ∨ bit_depth = 4 ∨ bit_depth = 8)
  else if color_type = 4 then
    decide (bit_depth = 8 ∨ bit_depth = 16)
  else if color_type = 6 then
    decide (bit_depth = 8 ∨ bit_depth = 16)
  else
    false

/-- The source's `png_parse_ihdr`: `none` models returning 0, `some`
models returning 1 with the out-parameter filled in. -/
def png_parse_ihdr (c : PNG_Chunk) : Option PNG_IHDR :=
  if c.length ≠ 13 then none
  else
    let ihdr := ihdrOf c
    if ihdr.width = 0 ∨ ihdr.height = 0 then none
    else if ihdr.compression_method ≠ 0 then none
    else if ihdr.filter_method ≠ 0 then none
    else if ihdr.interlace_method ≠ 0 ∧ ihdr.interlace_method ≠ 1 then none
    else if colorDepthOk ihdr.color_type ihdr.bit_depth then some ihdr
    else none

/-- The `PNG_PaletteEntry` struct of `png_decoder.h`. -/
structure PNG_PaletteEntry where
  red : Nat
  green : Nat
  blue : Nat
deriving DecidableEq, Repr

/-- The source's `png_parse_plte`: length must be a multiple of 3 and at
most 768; the entries are read three octets at a time. -/
def png_parse_plte (c : PNG_Chunk) : Option (List PNG_PaletteEntry) :=
  if c.length % 3 ≠ 0 ∨ 768 < c.length then none
  else
    some ((List.range (c.length / 3)).map fun i =>
      ⟨c.data.getD (i * 3) 0, c.data.getD (i * 3 + 1) 0, c.data.getD (i * 3 + 2) 0⟩)

/-- The source's `png_parse_trns` (the `png_decoder.h` /
`src/unnamed/part_002` signature, which takes the colour type): the
payload length is validated against the colour type and then copied.
The stale `src/png_decoder.c` variant performs no validation at all. -/
def png_parse_trns (c : PNG_Chunk) (color_type : Nat) : Option (List Nat) :=
  if color_type = 0 then
    if c.length ≠ 2 then none else some (c.data.take c.length)
  else if color_type = 2 then
    if c.length ≠ 6 then none else some (c.data.take c.length)
  else if color_type = 3 then
    if c.length = 0 ∨ 256 < c.length then none else some (c.data.take c.length)
  else
    -- GRAY_ALPHA, RGBA and every other colour type are rejected
    none

/-- The source's `png_process_idat`: the chunk payload is appended to the
growing IDAT concatenation (`malloc`+`memcpy` for the first chunk,
`realloc`+`memcpy` for the following ones). -/
def png_process_idat (c : PNG_Chunk) (image_data : List Nat) : List Nat :=
  image_data ++ c.data.take c.length

/-- Modelled from the spec: the Adler-32 checksum of the zlib (RFC 1950)
wrapper, which the external zlib library verifies before reporting
`Z_STREAM_END` to `png_decompress_data`. -/
def adler32 (bytes : List Nat) : Nat :=
  let p := bytes.foldl (fun (ab : Nat × Nat) b =>
    ((ab.1 + b) % 65521, (ab.2 + (ab.1 + b) % 65521) % 65521)) (1, 0)
  (p.2 <<< 16) ||| p.1

/-- Modelled from the spec: the block loop of the RFC 1951 DEFLATE stream
that the external zlib library inflates on behalf of
`png_decompress_data`.  Only stored (`BTYPE = 0`) blocks are modelled —
the subset a round-trip with compression level 0 produces and the only
subset any of the concrete streams below uses; a block of any other type
makes the model fail like a corrupt stream would.  `fuel` bounds the
recursion and is at least the stream length at every call site, which
suffices because every stored block consumes at least five octets. -/
def inflateBlocks (fuel : Nat) (bytes : List Nat) (out : List Nat) : Option (List Nat × List Nat) :=
  match fuel with
  | 0 => none
  | fuel + 1 =>
    if bytes.length < 5 then none
    else
      let b := bytes.getD 0 0
      let bfinal := b % 2
      let btype := (b >>> 1) % 4
      if btype ≠ 0 then none
      else
        let len := bytes.getD 1 0 + 256 * bytes.getD 2 0
        let nlen := bytes.getD 3 0 + 256 * bytes.getD 4 0
        if Nat.xor len 0xFFFF ≠ nlen then none
        else if (bytes.drop 5).length < len then none
        else
          let out2 := out ++ (bytes.drop 5).take len
          let rest := (bytes.drop 5).drop len
          if bfinal = 1 then some (out2, rest)
          else inflateBlocks fuel rest out2

/-- Modelled from the spec: `png_decompress_data` feeds the IDAT
concatenation to the external zlib inflator (RFC 1950 wrapper around
RFC 1951 DEFLATE) and returns the inflated bytes; the geometric
buffer-growth of the C wrapper has no observable effect on the output.
The zlib header (`CM = 8`, `(CMF·256 + FLG) mod 31 = 0`) and the
trailing Adler-32 checksum are verified, as zlib does before returning
`Z_STREAM_END`; input left over after the checksum is ignored, as zlib
ignores it. -/
def png_decompress_data (compressed : List Nat) : Option (List Nat) :=
  if compressed.length < 2 then none
  else
    let cmf := compressed.getD 0 0
    let flg := compressed.getD 1 0
    if cmf % 16 ≠ 8 then none
    else if (cmf * 256 + flg) % 31 ≠ 0 then none
    else
      match inflateBlocks compressed.length (compressed.drop 2) [] with
      | none => none
      | some (out, rest) =>
        if rest.length < 4 then none
        else if read_uint32_be (rest.take 4) 0 ≠ adler32 out then none
        else some out

/-- The Paeth branch of the filter switch of `png_apply_filters`:
`p = left + above - upper_left` in C `int` arithmetic, then the
neighbour with the smallest absolute difference is chosen. -/
def paethPredict (left above upper_left : Nat) : Nat :=
  let p : Int := (left : Int) + (above : Int) - (upper_left : Int)
  let pa := (p - (left : Int)).natAbs
  let pb := (p - (above : Int)).natAbs
  let pc := (p - (upper_left : Int)).natAbs
  if pa ≤ pb ∧ pa ≤ pc then left
  else if pb ≤ pc then above
  else upper_left

/-- The filter `switch` of `png_apply_filters`, acting on one byte:
`raw` is the stored (filtered) byte, the additions are the C `uint8`
additions, hence the `% 256`.  Filter 0 leaves the byte untouched, as
`case 0: break;` does. -/
def filt_byte (f raw left above upper_left : Nat) : Nat :=
  if f = 0 then raw
  else if f = 1 then (raw + left) % 256
  else if f = 2 then (raw + above) % 256
  else if f = 3 then (raw + (left + above) / 2) % 256
  else if f = 4 then (raw + paethPredict left above upper_left) % 256
  else raw

/-- The inner `for (x = 0; x < bytes_per_line; x++)` loop of
`png_apply_filters`: `out` is the prefix of `current_line` already
reconstructed in place, `rest` the stored bytes not yet processed, so
`left` and `upper_left` read the already-reconstructed values, with 0
outside the raster, exactly as the claim's recurrence states.  (`bpp`
is at least 1 at every call site, since a zero `bytes_per_line` is
rejected before the loop.) -/
def reconLineGo (f bpp : Nat) (prev : List Nat) (out : List Nat) : List Nat → List Nat
  | [] => out
  | raw :: rest =>
    let x := out.length
    let left := if bpp ≤ x then out.getD (x - bpp) 0 else 0
    let above := prev.getD x 0
    let upper_left := if bpp ≤ x then prev.getD (x - bpp) 0 else 0
    reconLineGo f bpp prev (out ++ [filt_byte f raw left above upper_left]) rest

/-- Reconstruction of one scanline from its filter type, the previous
reconstructed scanline and its stored bytes. -/
def reconLine (f bpp : Nat) (prev stored : List Nat) : List Nat :=
  reconLineGo f bpp prev [] stored

/-- In-place write of `xs` into `buf` at offset `off`, the model of the
`memcpy(output_ptr, current_line, bytes_per_line + 1)` writes of
`png_apply_filters` (always in bounds at its call sites). -/
def writeRange (buf : List Nat) (off : Nat) (xs : List Nat) : List Nat :=
  buf.take off ++ xs ++ buf.drop (off + xs.length)

/-- The scanline loop of `png_apply_filters` (`src/unnamed/part_002`
variant): row `y` reads its filter octet at offset `y·(s+1)` and its
stored bytes right after it, reconstructs the line, and copies
`bytes_per_line + 1` octets of the `bytes_per_line`-sized temporary
`current_line` to offset `y·s` — the final octet of that `memcpy` is an
out-of-bounds read of the heap octet following `current_line`, modelled
by the arbitrary junk value `g` (constant across the call, since nothing
writes that heap octet).  The `memcpy` into `prev_line` likewise copies
one octet past the temporary; only its first `bytes_per_line` octets
are ever read, so the model carries those.  The stale
`src/png_decoder.c` variant instead copies `bytes_per_line` octets per
row and then executes `memmove(image_data, image_data + height, …)`. -/
def applyLoop (g s bpp : Nat) : Nat → Nat → List Nat → List Nat → Option (List Nat)
  | 0, _, _, buf => some buf
  | n + 1, y, prev, buf =>
    let f := buf.getD (y * (s + 1)) 0
    if 4 < f then none
    else
      let stored := (buf.drop (y * (s + 1) + 1)).take s
      let cur := reconLine f bpp prev stored
      applyLoop g s bpp n (y + 1) cur (writeRange buf (y * s) (cur ++ [g]))

/-- The `bytes_per_pixel` switch of `png_apply_filters`, one branch per
`case`; `none` is the `default: return 0`. -/
def bppSwitch (color_type bit_depth : Nat) : Option Nat :=
  if color_type = 0 then some (if 8 ≤ bit_depth then 1 else 0)
  else if color_type = 2 then some (3 * (if 8 ≤ bit_depth then 1 else 0))
  else if color_type = 3 then some 1
  else if color_type = 4 then some (2 * (if 8 ≤ bit_depth then 1 else 0))
  else if color_type = 6 then some (4 * (if 8 ≤ bit_depth then 1 else 0))
  else none

/-- The source's `png_apply_filters` (`src/unnamed/part_002` variant).
`image_data_size` is the length of the buffer list; the `uint32`
products of the C code carry their `% 2^32`.  On success the C function
leaves the reconstructed raster in place and returns 1; the model
returns the whole resulting buffer.  `g` models the single
uninitialised heap octet described at `applyLoop`. -/
def png_apply_filters (g : Nat) (image_data : List Nat) (header : PNG_IHDR) : Option (List Nat) :=
  if header.width = 0 ∨ header.height = 0 then none
  else
    match bppSwitch header.color_type header.bit_depth with
    | none => none
    | some bpp0 =>
      let wb :=
        if header.bit_depth < 8 ∧ (header.color_type = 0 ∨ header.color_type = 3) then
          ((header.width * header.bit_depth + 7) % U32) / 8
        else header.width
      let bpp :=
        if header.bit_depth < 8 ∧ (header.color_type = 0 ∨ header.color_type = 3) then 1
        else if header.bit_depth = 16 then bpp0 * 2
        else bpp0
      let bytes_per_line := (wb * bpp) % U32
      if bytes_per_line = 0 then none
      else
        let expected := (header.height * (bytes_per_line + 1)) % U32
        if image_data.length < expected then none
        else applyLoop g bytes_per_line bpp header.height 0 (List.replicate bytes_per_line 0) image_data

/-- The `PNG_Image` struct of `png_decoder.h`.  `palette` and
`transparency` are `none` exactly when the corresponding pointer is
`NULL`; `palette_size`, `transparency_size` and `image_data_size` are
the lengths of the lists. -/
structure PNG_Image where
  header : PNG_IHDR
  palette : Option (List PNG_PaletteEntry)
  transparency : Option (List Nat)
  image_data : List Nat
deriving DecidableEq, Repr

/-- Working state of one output pixel inside `png_convert_to_rgba`
(`src/unnamed/part_002` declares `r`, `g`, `b`, `a` once per row, so the
state persists from pixel to pixel within a row and is reinitialised to
`(0, 0, 0, 255)` at each row; the stale `src/png_decoder.c` variant
declares them per pixel). -/
structure RGBAState where
  r : Nat
  g : Nat
  b : Nat
  a : Nat
deriving DecidableEq, Repr

/-- The sub-byte sample extraction that `png_convert_to_rgba` repeats at
each of its three `bit_depth < 8` sites:
`shift = 8 - bit_depth - (x*bit_depth) % 8`, `mask = (1 << bit_depth) - 1`,
`(src_row[(x*bit_depth)/8] >> shift) & mask`.  (`shift` is computed in
C `uint8` arithmetic; for the bit depths 1, 2 and 4 that reach this code
it never underflows, so `Nat` subtraction coincides.) -/
def subByteSample (bit_depth x : Nat) (row : List Nat) : Nat :=
  let shift := 8 - bit_depth - (x * bit_depth) % 8
  let mask := (1 <<< bit_depth) - 1
  (row.getD ((x * bit_depth) / 8) 0 >>> shift) &&& mask

/-- The per-pixel `switch (color_type)` of `png_convert_to_rgba`
(`src/unnamed/part_002`), including the grayscale and RGB colour-key
transparency blocks that follow it.  `row` is `src_row`, `st` the
incoming `(r, g, b, a)` working state; `none` models the
`free(*output); *output = NULL; return 0;` paths (missing palette,
unknown colour type). -/
def convertPixel (img : PNG_Image) (row : List Nat) (x : Nat) (st : RGBAState) :
    Option RGBAState :=
  let bd := img.header.bit_depth
  let ct := img.header.color_type
  match
    (if ct = 0 then
      if bd = 16 then
        let gray := (row.getD (x * 2) 0 <<< 8) ||| row.getD (x * 2 + 1) 0
        some { st with r := gray >>> 8, g := gray >>> 8, b := gray >>> 8 }
      else if 8 ≤ bd then
        some { st with r := row.getD x 0, g := row.getD x 0, b := row.getD x 0 }
      else
        let val := subByteSample bd x row
        let val := val * 255 / ((1 <<< bd) - 1)
        some { st with r := val, g := val, b := val }
    else if ct = 2 then
      if bd = 16 then
        some { st with r := row.getD (x * 6) 0, g := row.getD (x * 6 + 2) 0,
                       b := row.getD (x * 6 + 4) 0 }
      else
        some { st with r := row.getD (x * 3) 0, g := row.getD (x * 3 + 1) 0,
                       b := row.getD (x * 3 + 2) 0 }
    else if ct = 3 then
      match img.palette with
      | none => none
      | some pal =>
        let st1 :=
          if bd = 16 then
            -- "Shouldn't happen for palette, but handle anyway"
            let index := (row.getD (x * 2) 0 <<< 8) ||| row.getD (x * 2 + 1) 0
            if index < pal.length then
              let e := pal.getD index ⟨0, 0, 0⟩
              { st with r := e.red, g := e.green, b := e.blue }
            else st
          else
            let index := if 8 ≤ bd then row.getD x 0 else subByteSample bd x row
            if index < pal.length then
              let e := pal.getD index ⟨0, 0, 0⟩
              { st with r := e.red, g := e.green, b := e.blue }
            else st
        match img.transparency with
        | none => some st1
        | some t =>
          if 8 ≤ bd then
            if row.getD x 0 < t.length then
              some { st1 with a := t.getD (row.getD x 0) 0 }
            else some st1
          else
            let index := subByteSample bd x row
            if index < t.length then some { st1 with a := t.getD index 0 }
            else some st1
    else if ct = 4 then
      if bd = 16 then
        let gray := (row.getD (x * 4) 0 <<< 8) ||| row.getD (x * 4 + 1) 0
        let alpha := (row.getD (x * 4 + 2) 0 <<< 8) ||| row.getD (x * 4 + 3) 0
        some { r := gray >>> 8, g := gray >>> 8, b := gray >>> 8, a := alpha >>> 8 }
      else
        some { r := row.getD (x * 2) 0, g := row.getD (x * 2) 0,
               b := row.getD (x * 2) 0, a := row.getD (x * 2 + 1) 0 }
    else if ct = 6 then
      if bd = 16 then
        some { r := row.getD (x * 8) 0, g := row.getD (x * 8 + 2) 0,
               b := row.getD (x * 8 + 4) 0, a := row.getD (x * 8 + 6) 0 }
      else
        some { r := row.getD (x * 4) 0, g := row.getD (x * 4 + 1) 0,
               b := row.getD (x * 4 + 2) 0, a := row.getD (x * 4 + 3) 0 }
    else none : Option RGBAState)
  with
  | none => none
  | some st2 =>
    -- grayscale colour-key transparency
    let st3 :=
      match img.transparency with
      | none => st2
      | some t =>
        if ct = 0 then
          if bd = 16 then
            let gray := (row.getD (x * 2) 0 <<< 8) ||| row.getD (x * 2 + 1) 0
            if 2 ≤ t.length then
              let trans_gray := (t.getD 0 0 <<< 8) ||| t.getD 1 0
              { st2 with a := if gray = trans_gray then 0 else 255 }
            else st2
          else
            if 1 ≤ t.length then
              { st2 with a := if row.getD x 0 = t.getD 0 0 then 0 else 255 }
            else st2
        else st2
    -- RGB colour-key transparency
    let st4 :=
      match img.transparency with
      | none => st3
      | some t =>
        if ct = 2 then
          if bd = 16 then
            if 6 ≤ t.length then
              let r_val := (row.getD (x * 6) 0 <<< 8) ||| row.getD (x * 6 + 1) 0
              let g_val := (row.getD (x * 6 + 2) 0 <<< 8) ||| row.getD (x * 6 + 3) 0
              let b_val := (row.getD (x * 6 + 4) 0 <<< 8) ||| row.getD (x * 6 + 5) 0
              let trans_r := (t.getD 0 0 <<< 8) ||| t.getD 1 0
              let trans_g := (t.getD 2 0 <<< 8) ||| t.getD 3 0
              let trans_b := (t.getD 4 0 <<< 8) ||| t.getD 5 0
              { st3 with a := if r_val = trans_r ∧ g_val = trans_g ∧ b_val = trans_b
                              then 0 else 255 }
            else st3
          else
            if 3 ≤ t.length then
              { st3 with a := if row.getD (x * 3) 0 = t.getD 0 0 ∧
                                 row.getD (x * 3 + 1) 0 = t.getD 1 0 ∧
                                 row.getD (x * 3 + 2) 0 = t.getD 2 0
                              then 0 else 255 }
            else st3
        else st3
    some st4

/-- The `for (x = 0; x < width; x++)` loop of `png_convert_to_rgba`:
`m` pixels remain, `x` is the current column, `acc` the output bytes
emitted so far.  Each pixel appends `b, g, r, a` — the BGRA (DIB)
destination order of `src/unnamed/part_002`; the stale
`src/png_decoder.c` variant writes `r, g, b, a`. -/
def convertRowGo (img : PNG_Image) (row : List Nat) :
    Nat → Nat → RGBAState → List Nat → Option (List Nat)
  | 0, _, _, acc => some acc
  | m + 1, x, st, acc =>
    match convertPixel img row x st with
    | none => none
    | some st2 => convertRowGo img row m (x + 1) st2 (acc ++ [st2.b, st2.g, st2.r, st2.a])

/-- The `for (y = 0; y < height; y++)` loop of `png_convert_to_rgba`:
`src_row = src + y * src_row_bytes`, and the per-row working state is
reinitialised to `(0, 0, 0, 255)`. -/
def convertRowsGo (img : PNG_Image) (srb : Nat) : Nat → Nat → List Nat → Option (List Nat)
  | 0, _, acc => some acc
  | n + 1, y, acc =>
    match convertRowGo img (img.image_data.drop (y * srb)) img.header.width 0
        ⟨0, 0, 0, 255⟩ acc with
    | none => none
    | some acc2 => convertRowsGo img srb n (y + 1) acc2

/-- The `src_bpp` / `src_row_bytes` switch of `png_convert_to_rgba`, one
branch per `case`; `none` is the `default` path that frees the output
and fails.  The `uint32` products carry their `% 2^32`. -/
def convGeom (color_type bit_depth width : Nat) : Option (Nat × Nat) :=
  if color_type = 0 then
    some (if 8 ≤ bit_depth then 1 else 0, ((width * bit_depth + 7) % U32) / 8)
  else if color_type = 2 then
    let bpp := 3 * (if 8 ≤ bit_depth then 1 else 0)
    some (bpp, (width * bpp) % U32)
  else if color_type = 3 then
    some (1, ((width * bit_depth + 7) % U32) / 8)
  else if color_type = 4 then
    let bpp := 2 * (if 8 ≤ bit_depth then 1 else 0)
    some (bpp, (width * bpp) % U32)
  else if color_type = 6 then
    let bpp := 4 * (if 8 ≤ bit_depth then 1 else 0)
    some (bpp, (width * bpp) % U32)
  else none

/-- The source's `png_convert_to_rgba` (`src/unnamed/part_002` variant;
destination byte order BGRA, see `convertRowGo`).  `none` models every
path on which the C function returns 0 having freed the output buffer
and set `*output` to `NULL`.  (`src_bpp` is computed by the C code but
never used after the geometry switch, hence the discarded first
component.) -/
def png_convert_to_rgba (image : PNG_Image) : Option (List Nat) :=
  match convGeom image.header.color_type image.header.bit_depth image.header.width with
  | none => none
  | some (_src_bpp, srb0) =>
    let src_row_bytes := if image.header.bit_depth = 16 then (srb0 * 2) % U32 else srb0
    if image.image_data.length < (image.header.height * src_row_bytes) % U32 then none
    else convertRowsGo image src_row_bytes image.header.height 0 []

/-- The local state of the chunk loop of `png_read_file`: the image
being accumulated and the `has_ihdr` / `has_idat` / `has_iend` flags. -/
structure DecodeState where
  image : PNG_Image
  has_ihdr : Bool
  has_idat : Bool
  has_iend : Bool
deriving DecidableEq, Repr

/-- The `switch (chunk.type)` dispatcher of `png_read_file`
(`src/unnamed/part_002`): one branch per `case`, `none` modelling the
`goto error_cleanup` paths.  Every chunk type other than the five known
ones falls through to `default: break;` — the state is returned
unchanged, whatever the case of the first letter of the type. -/
def readFileStep (st : DecodeState) (c : PNG_Chunk) : Option DecodeState :=
  if c.type = PNG_CHUNK_IHDR then
    if st.has_ihdr then none
    else
      match png_parse_ihdr c with
      | none => none
      | some h => some { st with image := { st.image with header := h }, has_ihdr := true }
  else if c.type = PNG_CHUNK_PLTE then
    if st.has_ihdr = false ∨ st.image.header.color_type = 0 ∨
        st.image.header.color_type = 4 then none
    else
      match png_parse_plte c with
      | none => none
      | some pal => some { st with image := { st.image with palette := some pal } }
  else if c.type = PNG_CHUNK_tRNS then
    if st.has_ihdr = false ∨ st.image.header.color_type = 4 ∨
        st.image.header.color_type = 6 then none
    else
      match png_parse_trns c st.image.header.color_type with
      | none => none
      | some t => some { st with image := { st.image with transparency := some t } }
  else if c.type = PNG_CHUNK_IDAT then
    if st.has_ihdr = false ∨ st.has_iend then none
    else some { st with
      image := { st.image with image_data := png_process_idat c st.image.image_data },
      has_idat := true }
  else if c.type = PNG_CHUNK_IEND then
    if st.has_ihdr = false ∨ st.has_idat = false then none
    else some { st with has_iend := true }
  else
    some st

/-- The `while (!has_iend && png_read_chunk(file, &chunk))` loop of
`png_read_file`.  A failed chunk read exits the loop (the flag check
after the loop then decides the outcome); a dispatcher error aborts the
whole decode.  `fuel` bounds the recursion; every successful chunk read
consumes at least 12 octets of the stream, so a fuel of the stream
length plus one never runs out before the stream does. -/
def readChunksLoop : Nat → List Nat → DecodeState → Option DecodeState
  | 0, _, st => some st
  | fuel + 1, bytes, st =>
    if st.has_iend then some st
    else
      match png_read_chunk bytes with
      | (false, _, _) => some st
      | (true, c, rest) =>
        match readFileStep st c with
        | none => none
        | some st2 => readChunksLoop fuel rest st2

/-- The `memset(image, 0, sizeof(PNG_Image))` initial image. -/
def initImage : PNG_Image := ⟨⟨0, 0, 0, 0, 0, 0, 0⟩, none, none, []⟩

/-- The source's `png_read_file` (`src/unnamed/part_002`), on a byte
stream: signature check, chunk loop, flag check, decompression, filter
reversal.  `g` is the junk octet of `png_apply_filters`. -/
def png_read_file (g : Nat) (file : List Nat) : Option PNG_Image :=
  if png_validate_signature file = false then none
  else
    match readChunksLoop (file.length + 1) (file.drop 8) ⟨initImage, false, false, false⟩ with
    | none => none
    | some st =>
      if st.has_ihdr = false ∨ st.has_idat = false ∨ st.has_iend = false then none
      else
        match png_decompress_data st.image.image_data with
        | none => none
        | some dec =>
          match png_apply_filters g dec st.image.header with
          | none => none
          | some filtered => some { st.image with image_data := filtered }

/-- The full decode of the viewer: `png_read_file` followed by
`png_convert_to_rgba` (as `DisplayImage` chains them). -/
def decodeAndConvert (g : Nat) (file : List Nat) : Option (List Nat) :=
  (png_read_file g file).bind png_convert_to_rgba

/-! Specification-side definitions, written from the words of the spec
and of the claims (for comparison with the code definitions above). -/

/-- Number of samples per pixel of each colour type, as tabulated by the
spec (PALETTE pixels are single indices). -/
def channels (color_type : Nat) : Nat :=
  if color_type = 0 then 1
  else if color_type = 2 then 3
  else if color_type = 3 then 1
  else if color_type = 4 then 2
  else 4

/-- Spec §4.6: `bytes_per_pixel` (for filter offset purposes) is
`ceil(channels · bit_depth / 8)`, but never less than 1. -/
def spec_bytes_per_pixel (color_type bit_depth : Nat) : Nat :=
  max 1 ((channels color_type * bit_depth + 7) / 8)

/-- Spec §4.6: `scanline_stride` is `ceil(width · channels · bit_depth / 8)`. -/
def spec_scanline_stride (color_type bit_depth width : Nat) : Nat :=
  (width * channels color_type * bit_depth + 7) / 8

/-- The legal `(colour_type, bit_depth)` pairs exactly as the claim and
the spec tabulate them. -/
def legalPair (color_type bit_depth : Nat) : Prop :=
  (color_type = 0 ∧ (bit_depth = 1 ∨ bit_depth = 2 ∨ bit_depth = 4 ∨
      bit_depth = 8 ∨ bit_depth = 16)) ∨
  (color_type = 2 ∧ (bit_depth = 8 ∨ bit_depth = 16)) ∨
  (color_type = 3 ∧ (bit_depth = 1 ∨ bit_depth = 2 ∨ bit_depth = 4 ∨ bit_depth = 8)) ∨
  (color_type = 4 ∧ (bit_depth = 8 ∨ bit_depth = 16)) ∨
  (color_type = 6 ∧ (bit_depth = 8 ∨ bit_depth = 16))

/-- The scanline decomposition of the filtered buffer: scanline `y`
consists of the filter-type octet at offset `y·(s+1)` and the `s`
stored octets that follow it (`n` scanlines starting at row `y`). -/
def rowsFrom (input : List Nat) (s : Nat) : Nat → Nat → List (Nat × List Nat)
  | _, 0 => []
  | y, n + 1 =>
    (input.getD (y * (s + 1)) 0, (input.drop (y * (s + 1) + 1)).take s) ::
      rowsFrom input s (y + 1) n

/-- The reverse-filtered raster, row by row: each scanline is
reconstructed by `reconLine` from its filter type, the previously
reconstructed scanline (all zeros above the first scanline) and its
stored bytes — the recurrence stated by the claim. -/
def reconRows (bpp : Nat) : List Nat → List (Nat × List Nat) → List (List Nat)
  | _, [] => []
  | prev, (f, stored) :: rest =>
    reconLine f bpp prev stored :: reconRows bpp (reconLine f bpp prev stored) rest

/-! Helper lemmas about `writeRange`, `reconLine` and `applyLoop`. -/

theorem reconLineGo_length (f bpp : Nat) (prev : List Nat) :
    ∀ (rest out : List Nat), (reconLineGo f bpp prev out rest).length = out.length + rest.length := by
  intro rest
  induction rest with
  | nil => intro out; simp [reconLineGo]
  | cons raw rest ih =>
    intro out
    simp only [reconLineGo]
    rw [ih]
    simp
    omega

theorem reconLine_length (f bpp : Nat) (prev stored : List Nat) :
    (reconLine f bpp prev stored).length = stored.length := by
  unfold reconLine
  rw [reconLineGo_length]
  simp

theorem length_writeRange (buf : List Nat) (off : Nat) (xs : List Nat)
    (h : off + xs.length ≤ buf.length) :
    (writeRange buf off xs).length = buf.length := by
  simp [writeRange]
  omega

theorem take_writeRange (buf : List Nat) (off m : Nat) (xs : List Nat)
    (h : m ≤ off) (h2 : off ≤ buf.length) :
    (writeRange buf off xs).take m = buf.take m := by
  unfold writeRange
  rw [List.append_assoc, List.take_append_of_le_length (by simp; omega), List.take_take]
  congr 1
  omega

theorem drop_writeRange (buf : List Nat) (off m : Nat) (xs : List Nat)
    (h : off + xs.length ≤ m) (h2 : off ≤ buf.length) :
    (writeRange buf off xs).drop m = buf.drop m := by
  unfold writeRange
  have hlen : (buf.take off ++ xs).length = off + xs.length := by simp; omega
  have hm : m = (buf.take off ++ xs).length + (m - (off + xs.length)) := by omega
  rw [hm, List.drop_append, List.drop_drop]
  congr 1
  omega

theorem segment_writeRange (buf : List Nat) (off : Nat) (xs : List Nat)
    (h : off ≤ buf.length) :
    ((writeRange buf off xs).drop off).take xs.length = xs := by
  unfold writeRange
  rw [List.append_assoc, List.drop_append_of_le_length (by simp; omega)]
  simp [List.drop_take]

theorem getD_of_drop_eq (a b : List Nat) (m k : Nat) (h : a.drop m = b.drop m) :
    a.getD (m + k) 0 = b.getD (m + k) 0 := by
  rw [List.getD_eq_getElem?_getD, List.getD_eq_getElem?_getD,
    ← List.getElem?_drop, ← List.getElem?_drop, h]

/-- Correctness of the scanline loop: on a buffer that agrees with
`input` from offset `y·(s+1)` on and whose scanlines `y … y+n-1` carry
filter octets at most 4, the loop succeeds and deposits the
reconstructed scanlines, rows `y` onwards, at offsets `y·s` onwards —
the out-of-bounds junk octet `g` written after each row never survives
into the first `(y+n)·s` output octets. -/
theorem applyLoop_spec (g s bpp : Nat) (input : List Nat) :
    ∀ (n y : Nat) (prev buf : List Nat),
      buf.length = input.length →
      (y + n) * (s + 1) ≤ input.length →
      buf.drop (y * (s + 1)) = input.drop (y * (s + 1)) →
      (∀ i, i < n → input.getD ((y + i) * (s + 1)) 0 ≤ 4) →
      ∃ out, applyLoop g s bpp n y prev buf = some out ∧
        out.length = input.length ∧
        out.take (y * s) = buf.take (y * s) ∧
        (out.drop (y * s)).take (n * s) =
          (reconRows bpp prev (rowsFrom input s y n)).flatten := by
  intro n
  induction n with
  | zero =>
    intro y prev buf h1 _ _ _
    exact ⟨buf, rfl, h1, rfl, by simp [rowsFrom, reconRows]⟩
  | succ n ih =>
    intro y prev buf hlen hsz hdrop hfilt
    have e1 : (y + 1) * (s + 1) = y * (s + 1) + (s + 1) := by ring
    have e2 : y * (s + 1) = y * s + y := by ring
    have e3 : (y + 1) * s = y * s + s := by ring
    have hy1 : (y + 1) * (s + 1) ≤ input.length := by
      have := Nat.mul_le_mul_right (s + 1) (show y + 1 ≤ y + (n + 1) by omega)
      omega
    have hf : buf.getD (y * (s + 1)) 0 = input.getD (y * (s + 1)) 0 := by
      have h := getD_of_drop_eq buf input (y * (s + 1)) 0 hdrop
      simpa using h
    have hfle : buf.getD (y * (s + 1)) 0 ≤ 4 := by
      rw [hf]
      have := hfilt 0 (by omega)
      simpa using this
    have hdrop1 : buf.drop (y * (s + 1) + 1) = input.drop (y * (s + 1) + 1) := by
      have := congrArg (List.drop 1) hdrop
      simpa [List.drop_drop] using this
    set stored := (buf.drop (y * (s + 1) + 1)).take s with hstored
    have hstored_inp : stored = (input.drop (y * (s + 1) + 1)).take s := by
      rw [hstored, hdrop1]
    set cur := reconLine (buf.getD (y * (s + 1)) 0) bpp prev stored with hcur
    have hslen : stored.length = s := by
      rw [hstored]
      simp only [List.length_take, List.length_drop]
      omega
    have hclen : cur.length = s := by rw [hcur, reconLine_length, hslen]
    set buf2 := writeRange buf (y * s) (cur ++ [g]) with hbuf2
    have hxl : (cur ++ [g]).length = s + 1 := by simp [hclen]
    have hwb : y * s + (cur ++ [g]).length ≤ buf.length := by
      rw [hxl]; omega
    have hlen2 : buf2.length = input.length := by
      rw [hbuf2, length_writeRange _ _ _ hwb, hlen]
    have hdrop2 : buf2.drop ((y + 1) * (s + 1)) = input.drop ((y + 1) * (s + 1)) := by
      have base : buf.drop ((y + 1) * (s + 1)) = input.drop ((y + 1) * (s + 1)) := by
        have h := congrArg (List.drop (s + 1)) hdrop
        rw [List.drop_drop, List.drop_drop] at h
        rw [e1]
        exact h
      rw [hbuf2, drop_writeRange buf (y * s) ((y + 1) * (s + 1)) (cur ++ [g])
        (by rw [hxl]; omega) (by omega)]
      exact base
    have hfilt2 : ∀ i, i < n → input.getD ((y + 1 + i) * (s + 1)) 0 ≤ 4 := by
      intro i hi
      have := hfilt (i + 1) (by omega)
      simpa [show y + (i + 1) = y + 1 + i by omega] using this
    have hsz2 : (y + 1 + n) * (s + 1) ≤ input.length := by
      have h : y + 1 + n = y + (n + 1) := by omega
      rw [h]; exact hsz
    obtain ⟨out, hout, holen, hotake, hoseg⟩ := ih (y + 1) cur buf2 hlen2 hsz2 hdrop2 hfilt2
    have hys : y * s ≤ (y + 1) * s := by omega
    refine ⟨out, ?_, holen, ?_, ?_⟩
    · simp only [applyLoop]
      rw [if_neg (by omega)]
      exact hout
    · calc out.take (y * s)
          = (out.take ((y + 1) * s)).take (y * s) := by
            rw [List.take_take]; congr 1; omega
        _ = (buf2.take ((y + 1) * s)).take (y * s) := by rw [hotake]
        _ = buf2.take (y * s) := by
            rw [List.take_take]; congr 1; omega
        _ = buf.take (y * s) := by
            rw [hbuf2]
            exact take_writeRange buf (y * s) (y * s) (cur ++ [g]) (le_refl _) (by omega)
    · have p1 : (out.drop (y * s)).take s = cur := by
        have q1 : (out.drop (y * s)).take s = (buf2.drop (y * s)).take s := by
          rw [List.take_drop, List.take_drop,
            show y * s + s = (y + 1) * s from by ring, hotake]
        rw [q1, hbuf2]
        have hseg := segment_writeRange buf (y * s) (cur ++ [g]) (by omega)
        rw [hxl] at hseg
        have h2 : ((writeRange buf (y * s) (cur ++ [g])).drop (y * s)).take s
            = (((writeRange buf (y * s) (cur ++ [g])).drop (y * s)).take (s + 1)).take s := by
          rw [List.take_take]; congr 1; omega
        rw [h2, hseg, List.take_append_of_le_length (by omega),
          List.take_of_length_le (by omega)]
      have hcur_inp : cur = reconLine (input.getD (y * (s + 1)) 0) bpp prev
          ((input.drop (y * (s + 1) + 1)).take s) := by
        rw [hcur, hf, hstored_inp]
      have e4 : (n + 1) * s = s + n * s := by ring
      rw [e4, List.take_add, List.drop_drop,
        show y * s + s = (y + 1) * s from by ring, p1, hoseg]
      simp only [rowsFrom, reconRows, List.flatten_cons]
      rw [← hcur_inp]

/-- Geometry bridge: on a header with a legal colour/depth pair and
positive dimensions, and in the absence of `uint32` overflow, the
`bytes_per_pixel` / `bytes_per_line` computation of `png_apply_filters`
yields exactly the spec's `bytes_per_pixel` and `scanline_stride`, its
guards pass, and the function reduces to its scanline loop. -/
theorem png_apply_filters_geom (g : Nat) (input : List Nat) (w h bd ct cm fm il : Nat)
    (hw : 0 < w) (hh : 0 < h)
    (hleg : legalPair ct bd)
    (hof : w * bd + 7 < U32)
    (hlen : input.length < U32)
    (hin : h * (spec_scanline_stride ct bd w + 1) ≤ input.length) :
    png_apply_filters g input ⟨w, h, bd, ct, cm, fm, il⟩ =
      applyLoop g (spec_scanline_stride ct bd w) (spec_bytes_per_pixel ct bd) h 0
        (List.replicate (spec_scanline_stride ct bd w) 0) input := by
  have key : ∀ a b p : Nat, a = b →
      applyLoop g a p h 0 (List.replicate a 0) input =
        applyLoop g b p h 0 (List.replicate b 0) input := by
    intro a b p hab
    rw [hab]
  rcases hleg with ⟨hct, hbd⟩ | ⟨hct, hbd⟩ | ⟨hct, hbd⟩ | ⟨hct, hbd⟩ | ⟨hct, hbd⟩ <;>
    subst hct <;>
    [rcases hbd with hbd | hbd | hbd | hbd | hbd;
     rcases hbd with hbd | hbd;
     rcases hbd with hbd | hbd | hbd | hbd;
     rcases hbd with hbd | hbd;
     rcases hbd with hbd | hbd] <;>
    subst hbd <;>
    simp only [png_apply_filters, bppSwitch, spec_scanline_stride, spec_bytes_per_pixel,
      channels, U32] at hof hin hlen ⊢ <;>
    norm_num at hof hin ⊢ <;>
    [skip; skip; skip;
     rw [show (w * 8 + 7) / 8 = w from by omega] at hin;
     rw [show (w * 16 + 7) / 8 = w * 2 from by omega] at hin;
     rw [show (w * 3 * 8 + 7) / 8 = w * 3 from by omega] at hin;
     rw [show (w * 3 * 16 + 7) / 8 = w * 6 from by omega] at hin;
     skip; skip; skip;
     rw [show (w * 8 + 7) / 8 = w from by omega] at hin;
     rw [show (w * 2 * 8 + 7) / 8 = w * 2 from by omega] at hin;
     rw [show (w * 2 * 16 + 7) / 8 = w * 4 from by omega] at hin;
     rw [show (w * 4 * 8 + 7) / 8 = w * 4 from by omega] at hin;
     rw [show (w * 4 * 16 + 7) / 8 = w * 8 from by omega] at hin] <;>
    rw [if_neg (by omega)] <;>
    (repeat rw [Nat.mod_eq_of_lt (by omega)]) <;>
    rw [if_neg (by omega), if_neg (by omega)] <;>
    exact key _ _ _ (by omega)

/-! Concrete byte streams used as decisive inputs.  Each is a complete
PNG file: signature, then chunks of the form
`length(4, BE) ‖ type(4) ‖ payload ‖ CRC-32(type ‖ payload)`; the IDAT
payloads are zlib streams with a single stored DEFLATE block. -/

/-- Minimal 1×1 RGB-8 PNG whose single pixel is `FF 00 00` (spec S1):
IHDR(1, 1, 8, RGB), IDAT(zlib of `00 FF 00 00`), IEND. -/
def minimalRgbPng : List Nat :=
  [137, 80, 78, 71, 13, 10, 26, 10,
   0, 0, 0, 13, 73, 72, 68, 82, 0, 0, 0, 1, 0, 0, 0, 1, 8, 2, 0, 0, 0, 144, 119, 83, 222,
   0, 0, 0, 15, 73, 68, 65, 84, 120, 1, 1, 4, 0, 251, 255, 0, 255, 0, 0, 3, 1, 1, 0,
     141, 29, 229, 130,
   0, 0, 0, 0, 73, 69, 78, 68, 174, 66, 96, 130]

/-- The same 1×1 RGB-8 PNG with an unknown chunk of type `ABCD`
(first letter uppercase, i.e. critical) inserted between IHDR and
IDAT; its CRC is valid. -/
def unknownChunkPng : List Nat :=
  [137, 80, 78, 71, 13, 10, 26, 10,
   0, 0, 0, 13, 73, 72, 68, 82, 0, 0, 0, 1, 0, 0, 0, 1, 8, 2, 0, 0, 0, 144, 119, 83, 222,
   0, 0, 0, 2, 65, 66, 67, 68, 1, 2, 94, 210, 241, 225,
   0, 0, 0, 15, 73, 68, 65, 84, 120, 1, 1, 4, 0, 251, 255, 0, 255, 0, 0, 3, 1, 1, 0,
     141, 29, 229, 130,
   0, 0, 0, 0, 73, 69, 78, 68, 174, 66, 96, 130]

/-- The same 1×1 RGB-8 PNG with its IDAT split in two and a PLTE chunk
inserted between the two IDAT halves: IHDR, IDAT₁, PLTE, IDAT₂, IEND —
a stream that violates both ordering invariants of the claim (PLTE
after the first IDAT, and a non-IDAT chunk between two IDATs). -/
def plteBetweenIdatsPng : List Nat :=
  [137, 80, 78, 71, 13, 10, 26, 10,
   0, 0, 0, 13, 73, 72, 68, 82, 0, 0, 0, 1, 0, 0, 0, 1, 8, 2, 0, 0, 0, 144, 119, 83, 222,
   0, 0, 0, 6, 73, 68, 65, 84, 120, 1, 1, 4, 0, 251, 127, 61, 91, 241,
   0, 0, 0, 3, 80, 76, 84, 69, 9, 8, 7, 254, 22, 25, 254,
   0, 0, 0, 9, 73, 68, 65, 84, 255, 0, 255, 0, 0, 3, 1, 1, 0, 112, 37, 3, 176,
   0, 0, 0, 0, 73, 69, 78, 68, 174, 66, 96, 130]

/-- A 1×1 GRAY-8 PNG with sample `0x80` and a tRNS chunk whose 16-bit
gray value is `0x0080` (octets `00 80`) — the scenario S4 of the spec:
IHDR(1, 1, 8, GRAY), tRNS(`00 80`), IDAT(zlib of `00 80`), IEND. -/
def grayTrnsPng : List Nat :=
  [137, 80, 78, 71, 13, 10, 26, 10,
   0, 0, 0, 13, 73, 72, 68, 82, 0, 0, 0, 1, 0, 0, 0, 1, 8, 0, 0, 0, 0, 58, 126, 155, 85,
   0, 0, 0, 2, 116, 82, 78, 83, 0, 128, 155, 43, 78, 24,
   0, 0, 0, 13, 73, 68, 65, 84, 120, 1, 1, 2, 0, 253, 255, 0, 128, 0, 130, 0, 129,
     195, 110, 37, 224,
   0, 0, 0, 0, 73, 69, 78, 68, 174, 66, 96, 130]

/-- A 1×1 PALETTE-8 PNG whose PLTE holds a single entry `(10, 20, 30)`
(palette_size = 1) and whose tRNS holds two octets `07 09` — more
entries than the palette has: IHDR(1, 1, 8, PALETTE), PLTE, tRNS,
IDAT(zlib of `00 00`), IEND. -/
def palTrnsPng : List Nat :=
  [137, 80, 78, 71, 13, 10, 26, 10,
   0, 0, 0, 13, 73, 72, 68, 82, 0, 0, 0, 1, 0, 0, 0, 1, 8, 3, 0, 0, 0, 40, 203, 52, 187,
   0, 0, 0, 3, 80, 76, 84, 69, 10, 20, 30, 126, 76, 82, 58,
   0, 0, 0, 2, 116, 82, 78, 83, 7, 9, 64, 14, 227, 91,
   0, 0, 0, 13, 73, 68, 65, 84, 120, 1, 1, 2, 0, 253, 255, 0, 0, 0, 2, 0, 1,
     126, 5, 13, 210,
   0, 0, 0, 0, 73, 69, 78, 68, 174, 66, 96, 130]

/-- A 1×1 PALETTE-8 PNG with no PLTE chunk at all:
IHDR(1, 1, 8, PALETTE), IDAT(zlib of `00 00`), IEND. -/
def palNoPltePng : List Nat :=
  [137, 80, 78, 71, 13, 10, 26, 10,
   0, 0, 0, 13, 73, 72, 68, 82, 0, 0, 0, 1, 0, 0, 0, 1, 8, 3, 0, 0, 0, 40, 203, 52, 187,
   0, 0, 0, 13, 73, 68, 65, 84, 120, 1, 1, 2, 0, 253, 255, 0, 0, 0, 2, 0, 1,
     126, 5, 13, 210,
   0, 0, 0, 0, 73, 69, 78, 68, 174, 66, 96, 130]

/-! The claims. -/

/-- C1 (counterexample): decoding the minimal 1×1 RGB-8 red-pixel PNG
succeeds but produces `{0x00, 0x00, 0xFF, 0xFF}`, not the
`{0xFF, 0x00, 0x00, 0xFF}` the claim states — the code writes the
pixel in BGRA (DIB) order, not RGBA order. -/
theorem c1_minimal_rgb_not_rgba_order :
    decodeAndConvert 0 minimalRgbPng = some [0, 0, 255, 255] ∧
      decodeAndConvert 0 minimalRgbPng ≠ some [255, 0, 0, 255] := by
  constructor
  · decide
  · decide

/-- C1 (amended): for the minimal valid PNG encoding a 1×1 RGB image at
bit depth 8 whose single pixel is `{0xFF, 0x00, 0x00}`, the full decode
(`png_read_file` followed by `png_convert_to_rgba`) succeeds and its
4-byte output equals `{0x00, 0x00, 0xFF, 0xFF}` — the pixel in BGRA
(DIB) byte order with alpha 255, whatever the junk octet `g` of the
filter stage. -/
theorem c1_minimal_rgb_decode_bgra (g : Nat) :
    decodeAndConvert g minimalRgbPng = some [0, 0, 255, 255] := rfl

/-- C5 (code evaluated at the failing input): decoding the 1×1 GRAY-8
PNG with sample `0x80` and tRNS gray value `0x0080` yields alpha 255,
not the alpha 0 the claim and spec scenario S4 require: the code
compares the 8-bit sample against `transparency[0]` — the HIGH octet of
the 16-bit tRNS value, `0x00` — instead of the full-precision value. -/
theorem c5_gray8_trns_alpha_stays_opaque (g : Nat) :
    decodeAndConvert g grayTrnsPng = some [128, 128, 128, 255] := by
  have h1 : png_read_file g grayTrnsPng =
      some ⟨⟨1, 1, 8, 0, 0, 0, 0⟩, none, some [0, 128], [128, g]⟩ := rfl
  unfold decodeAndConvert
  rw [h1, Option.some_bind]
  unfold png_convert_to_rgba
  norm_num [convGeom, U32]
  rfl

/-- C3 (counterexample): a stream containing the unknown chunk type
`ABCD`, whose first letter is uppercase (critical), decodes
successfully — no fatal error is raised, contradicting the claim. -/
theorem c3_unknown_critical_chunk_decoded :
    decodeAndConvert 0 unknownChunkPng = some [0, 0, 255, 255] := by decide

/-- C3 (amended): every chunk whose type is not one of IHDR, PLTE,
tRNS, IDAT, IEND is silently skipped with the decode state unchanged,
regardless of the case of its first letter — the dispatcher's `default`
branch ignores unknown chunks without inspecting bit 0x20. -/
theorem c3_unknown_chunks_skipped (st : DecodeState) (c : PNG_Chunk)
    (h : c.type ≠ PNG_CHUNK_IHDR ∧ c.type ≠ PNG_CHUNK_PLTE ∧ c.type ≠ PNG_CHUNK_tRNS ∧
      c.type ≠ PNG_CHUNK_IDAT ∧ c.type ≠ PNG_CHUNK_IEND) :
    readFileStep st c = some st := by
  obtain ⟨h1, h2, h3, h4, h5⟩ := h
  unfold readFileStep
  simp [h1, h2, h3, h4, h5]

/-- Witness for the amended C3: the concrete uppercase chunk type
`ABCD` (0x41424344) is skipped in the initial state. -/
theorem c3_unknown_chunks_skipped_witness :
    ((1094861636 ≠ PNG_CHUNK_IHDR ∧ 1094861636 ≠ PNG_CHUNK_PLTE ∧
        1094861636 ≠ PNG_CHUNK_tRNS ∧ 1094861636 ≠ PNG_CHUNK_IDAT ∧
        1094861636 ≠ PNG_CHUNK_IEND) ∧
      readFileStep ⟨initImage, false, false, false⟩ ⟨2, 1094861636, [1, 2], 1589899745⟩ =
        some ⟨initImage, false, false, false⟩) :=
  ⟨by decide, c3_unknown_chunks_skipped _ _ (by decide)⟩

/-- C4 (counterexample): the stream IHDR ‖ IDAT₁ ‖ PLTE ‖ IDAT₂ ‖ IEND
— PLTE after the first IDAT and a non-IDAT chunk between two IDATs —
decodes successfully instead of yielding an ordering error. -/
theorem c4_plte_between_idats_decoded :
    decodeAndConvert 0 plteBetweenIdatsPng = some [0, 0, 255, 255] := by decide

/-- C4 (amended): `png_read_file` enforces no IDAT-contiguity and no
PLTE/tRNS-before-IDAT ordering: its dispatcher accepts a well-formed
PLTE chunk, and a well-formed tRNS chunk, in any state whose header is
present and colour type is RGB — in particular after the first IDAT
(`has_idat = true`), so chunks between two IDATs and PLTE/tRNS after
IDAT are processed normally. -/
theorem c4_plte_trns_accepted_after_idat :
    (∀ (st : DecodeState) (c : PNG_Chunk),
      st.has_ihdr = true → st.has_idat = true → st.image.header.color_type = 2 →
      c.type = PNG_CHUNK_PLTE → c.length % 3 = 0 → c.length ≤ 768 →
      (readFileStep st c).isSome = true) ∧
    (∀ (st : DecodeState) (c : PNG_Chunk),
      st.has_ihdr = true → st.has_idat = true → st.image.header.color_type = 2 →
      c.type = PNG_CHUNK_tRNS → c.length = 6 →
      (readFileStep st c).isSome = true) := by
  constructor
  · intro st c h1 _ h3 h4 h5 h6
    have hplte : (png_parse_plte c).isSome = true := by
      unfold png_parse_plte
      rw [if_neg (by omega)]
      rfl
    obtain ⟨pal, hpal⟩ := Option.isSome_iff_exists.mp hplte
    unfold readFileStep
    rw [if_neg (by rw [h4]; decide), if_pos h4, if_neg (by simp [h1, h3]), hpal]
    rfl
  · intro st c h1 _ h3 h4 h5
    have htrns : (png_parse_trns c st.image.header.color_type).isSome = true := by
      simp [png_parse_trns, h3, h5]
    obtain ⟨t, ht⟩ := Option.isSome_iff_exists.mp htrns
    unfold readFileStep
    rw [if_neg (by rw [h4]; decide), if_neg (by rw [h4]; decide), if_pos h4,
      if_neg (by simp [h1, h3]), ht]
    rfl

/-- Witness for the amended C4: a concrete post-IDAT state (RGB header,
`has_idat = true`) accepts a concrete well-formed PLTE chunk and a
concrete well-formed tRNS chunk. -/
theorem c4_plte_trns_accepted_after_idat_witness :
    (readFileStep ⟨⟨⟨1, 1, 8, 2, 0, 0, 0⟩, none, none, [7]⟩, true, true, false⟩
        ⟨3, PNG_CHUNK_PLTE, [9, 8, 7], 0⟩).isSome = true ∧
      (readFileStep ⟨⟨⟨1, 1, 8, 2, 0, 0, 0⟩, none, none, [7]⟩, true, true, false⟩
        ⟨6, PNG_CHUNK_tRNS, [0, 1, 0, 2, 0, 3], 0⟩).isSome = true :=
  ⟨c4_plte_trns_accepted_after_idat.1 _ _ rfl rfl rfl rfl (by decide) (by decide),
   c4_plte_trns_accepted_after_idat.2 _ _ rfl rfl rfl rfl (by decide)⟩

/-- C2 (counterexample): the spec-legal header PALETTE at bit depth 4
with width `2^30` and height 1, together with a buffer holding exactly
the one scanline the claim describes — a filter octet 0 followed by
`scanline_stride = 2^29` stored bytes — refutes the claim as stated:
`png_apply_filters` fails on it.  The C computes `width * bit_depth`
in `uint32`, which wraps to 0, so `(width * bit_depth + 7) / 8` becomes
0, `bytes_per_line` becomes 0 and the `bytes_per_line == 0` guard
returns 0, though the claim asserts the call succeeds. -/
theorem c2_overflow_width_defilter_fails :
    legalPair 3 4 ∧
      (0 :: List.replicate 536870912 0 : List Nat).length =
        1 * (spec_scanline_stride 3 4 1073741824 + 1) ∧
      (0 :: List.replicate 536870912 0 : List Nat).getD
        (0 * (spec_scanline_stride 3 4 1073741824 + 1)) 0 ≤ 4 ∧
      png_apply_filters 0 (0 :: List.replicate 536870912 0) ⟨1073741824, 1, 4, 3, 0, 0, 0⟩ =
        none := by
  refine ⟨Or.inr (Or.inr (Or.inl ⟨rfl, Or.inr (Or.inr (Or.inl rfl))⟩)), ?_, ?_, ?_⟩
  · rw [List.length_cons, List.length_replicate]
    norm_num [spec_scanline_stride, channels]
  · rw [Nat.zero_mul]
    show (0:Nat) ≤ 4
    norm_num
  · rfl

/-- C2 (amended): for every input buffer holding `height` scanlines —
each a filter-type octet in `0..=4` followed by `scanline_stride`
filtered bytes — over a header with a legal colour/depth pair and
positive dimensions, and provided the `uint32` geometry arithmetic of
the C code does not wrap (`width · bit_depth + 7 < 2^32`, and the
buffer — as any C buffer whose size is a `uint32` — is smaller than
`2^32` bytes), `png_apply_filters` succeeds, and the first
`height · scanline_stride` bytes of the resulting buffer equal the
reverse-filtered raster with every filter-type byte dropped: each
output byte is the stored byte plus (mod 256) the predictor computed by
`reconLineGo` from the already reconstructed left, above and upper-left
neighbours, 0 outside the raster — for every value `g` of the junk
octet the out-of-bounds `memcpy` of the C code appends to each row. -/
theorem c2_apply_filters_defilters (g : Nat) (hd : PNG_IHDR) (input : List Nat)
    (hleg : legalPair hd.color_type hd.bit_depth)
    (hw : 0 < hd.width) (hh : 0 < hd.height)
    (hof : hd.width * hd.bit_depth + 7 < U32)
    (hlen : input.length < U32)
    (hin : hd.height * (spec_scanline_stride hd.color_type hd.bit_depth hd.width + 1) ≤
      input.length)
    (hfilt : ∀ y, y < hd.height →
      input.getD (y * (spec_scanline_stride hd.color_type hd.bit_depth hd.width + 1)) 0 ≤ 4) :
    ∃ out, png_apply_filters g input hd = some out ∧
      out.take (hd.height * spec_scanline_stride hd.color_type hd.bit_depth hd.width) =
        (reconRows (spec_bytes_per_pixel hd.color_type hd.bit_depth)
          (List.replicate (spec_scanline_stride hd.color_type hd.bit_depth hd.width) 0)
          (rowsFrom input (spec_scanline_stride hd.color_type hd.bit_depth hd.width)
            0 hd.height)).flatten := by
  obtain ⟨w, h, bd, ct, cm, fm, il⟩ := hd
  dsimp only at hleg hw hh hof hin hfilt ⊢
  rw [png_apply_filters_geom g input w h bd ct cm fm il hw hh hleg hof hlen hin]
  obtain ⟨out, hout, _, _, hseg⟩ :=
    applyLoop_spec g (spec_scanline_stride ct bd w) (spec_bytes_per_pixel ct bd) input h 0
      (List.replicate (spec_scanline_stride ct bd w) 0) input rfl
      (by simpa using hin) rfl (by simpa using hfilt)
  refine ⟨out, hout, ?_⟩
  simpa using hseg

/-- Witness for C2: a concrete 1×2 GRAY-8 buffer, first scanline
filter None with stored byte 5, second scanline filter Up with stored
byte 7, defilters to `5, 12`. -/
theorem c2_apply_filters_defilters_witness :
    legalPair 0 8 ∧ (0:Nat) < 1 ∧ (0:Nat) < 2 ∧
      (1 * 8 + 7 < U32) ∧ (([0, 5, 2, 7] : List Nat).length < U32) ∧
      (2 * (spec_scanline_stride 0 8 1 + 1) ≤ ([0, 5, 2, 7] : List Nat).length) ∧
      (∃ out, png_apply_filters 0 [0, 5, 2, 7] ⟨1, 2, 8, 0, 0, 0, 0⟩ = some out ∧
        out.take (2 * spec_scanline_stride 0 8 1) =
          (reconRows (spec_bytes_per_pixel 0 8)
            (List.replicate (spec_scanline_stride 0 8 1) 0)
            (rowsFrom [0, 5, 2, 7] (spec_scanline_stride 0 8 1) 0 2)).flatten) :=
  ⟨Or.inl ⟨rfl, by norm_num⟩, by norm_num, by norm_num, by norm_num [U32], by norm_num [U32],
   by norm_num [spec_scanline_stride, channels],
   c2_apply_filters_defilters 0 ⟨1, 2, 8, 0, 0, 0, 0⟩ [0, 5, 2, 7]
     (Or.inl ⟨rfl, by norm_num⟩) (by norm_num) (by norm_num) (by norm_num [U32])
     (by norm_num [U32]) (by norm_num [spec_scanline_stride, channels])
     (by decide)⟩

/-- C6 (counterexample): an IHDR payload whose width is `0x80000000`
(top bit set, i.e. not a 31-bit value) is accepted by `png_parse_ihdr`,
contradicting the claim's "top bit zero" condition — the code checks
only for zero. -/
theorem c6_width_top_bit_accepted :
    png_parse_ihdr ⟨13, PNG_CHUNK_IHDR, [128, 0, 0, 0, 0, 0, 0, 1, 8, 0, 0, 0, 0], 0⟩ =
        some ⟨2147483648, 1, 8, 0, 0, 0, 0⟩ ∧
      ¬ (2147483648 : Nat) < 2 ^ 31 := by
  constructor
  · decide
  · decide

/-- The `switch` of `png_parse_ihdr` accepts exactly the legal
`(colour_type, bit_depth)` pairs of the spec's table. -/
theorem colorDepthOk_iff_legalPair : ∀ a b : Nat, colorDepthOk a b = true ↔ legalPair a b := by
  intro a b
  unfold colorDepthOk legalPair
  split_ifs with h0 h2 h3 h4 h6 <;> simp_all

/-- C6 (amended): `png_parse_ihdr` succeeds if and only if the chunk
length is exactly 13, the extracted width and height are nonzero (any
nonzero 32-bit value is accepted — the top bit is not inspected),
`compression_method = 0`, `filter_method = 0`, `interlace_method` is 0
or 1, and `(colour_type, bit_depth)` is a legal pair of the spec's
table. -/
theorem c6_parse_ihdr_iff (c : PNG_Chunk) :
    (png_parse_ihdr c).isSome ↔
      (c.length = 13 ∧ (ihdrOf c).width ≠ 0 ∧ (ihdrOf c).height ≠ 0 ∧
        (ihdrOf c).compression_method = 0 ∧ (ihdrOf c).filter_method = 0 ∧
        ((ihdrOf c).interlace_method = 0 ∨ (ihdrOf c).interlace_method = 1) ∧
        legalPair (ihdrOf c).color_type (ihdrOf c).bit_depth) := by
  simp only [png_parse_ihdr]
  split_ifs with h1 h2 h3 h4 h5 h6
  · simp [h1]
  · simp only [Option.isSome_none, Bool.false_eq_true, false_iff]
    intro hc
    exact h2.elim (fun hw => hc.2.1 hw) (fun hh => hc.2.2.1 hh)
  · simp only [Option.isSome_none, Bool.false_eq_true, false_iff]
    intro hc
    exact h3 hc.2.2.2.1
  · simp only [Option.isSome_none, Bool.false_eq_true, false_iff]
    intro hc
    exact h4 hc.2.2.2.2.1
  · simp only [Option.isSome_none, Bool.false_eq_true, false_iff]
    intro hc
    rcases hc.2.2.2.2.2.1 with h | h
    · exact h5.1 h
    · exact h5.2 h
  · simp only [Option.isSome_some, true_iff]
    refine ⟨by omega, ?_, ?_, by omega, by omega, by omega,
      (colorDepthOk_iff_legalPair _ _).mp h6⟩
    · intro hw
      exact h2 (Or.inl hw)
    · intro hh
      exact h2 (Or.inr hh)
  · simp only [Option.isSome_none, Bool.false_eq_true, false_iff]
    intro hc
    exact h6 ((colorDepthOk_iff_legalPair _ _).mpr hc.2.2.2.2.2.2)

/-- C7 (counterexample): the full decode of a PALETTE-8 stream with
`palette_size = 1` and a 2-octet tRNS succeeds (pixel `(10, 20, 30)`
written in BGRA order with alpha `transparency[0] = 7`), contradicting
the claim that tRNS payloads longer than `palette_size` are rejected —
the code bounds the PALETTE tRNS length by 256 only, never by the
palette size. -/
theorem c7_trns_longer_than_palette_decoded :
    decodeAndConvert 0 palTrnsPng = some [30, 20, 10, 7] ∧
      (png_read_file 0 palTrnsPng).map (fun i => (i.palette, i.transparency)) =
        some (some [⟨10, 20, 30⟩], some [7, 9]) := by
  constructor
  · decide
  · decide

/-- C7 (amended): `png_parse_trns` succeeds if and only if the colour
type is GRAY with a 2-octet payload, RGB with a 6-octet payload, or
PALETTE with a payload of 1 to 256 octets (the palette size is not
consulted); every other colour type — GRAY_ALPHA and RGBA in
particular — is rejected outright. -/
theorem c7_parse_trns_iff (c : PNG_Chunk) (color_type : Nat) :
    (png_parse_trns c color_type).isSome ↔
      ((color_type = 0 ∧ c.length = 2) ∨ (color_type = 2 ∧ c.length = 6) ∨
        (color_type = 3 ∧ 1 ≤ c.length ∧ c.length ≤ 256)) := by
  unfold png_parse_trns
  split_ifs <;> simp_all <;> omega

/-- C8 (counterexample): converting a 1×1 PALETTE-8 image whose single
pixel holds palette index 7 while the palette has one entry succeeds —
the out-of-range pixel is silently rendered with the default
components `(0, 0, 0, 255)` instead of failing. -/
theorem c8_out_of_range_palette_index_rendered :
    png_convert_to_rgba ⟨⟨1, 1, 8, 3, 0, 0, 0⟩, some [⟨1, 2, 3⟩], none, [7]⟩ =
      some [0, 0, 0, 255] := by decide

/-- C8 (amended): a pixel whose palette index is at least
`palette_size` does not make the conversion fail: the `index <
palette_size` guard merely skips the palette lookup, leaving the
working colour components unchanged (they are initialised to `(0, 0,
0)` with alpha 255 at the start of each row), and the conversion
succeeds — here stated for a 1×1 image with an arbitrary palette and
an arbitrary out-of-range index byte. -/
theorem c8_out_of_range_index_renders_default (p : List PNG_PaletteEntry) (i : Nat)
    (hi : p.length ≤ i) :
    png_convert_to_rgba ⟨⟨1, 1, 8, 3, 0, 0, 0⟩, some p, none, [i]⟩ =
      some [0, 0, 0, 255] := by
  unfold png_convert_to_rgba
  norm_num [convGeom, U32]
  unfold convertRowsGo convertRowGo convertPixel
  norm_num
  rw [if_neg (by omega)]
  rfl

/-- Witness for the amended C8: the concrete single-entry palette with
index byte 7. -/
theorem c8_out_of_range_index_renders_default_witness :
    ([(⟨1, 2, 3⟩ : PNG_PaletteEntry)] : List PNG_PaletteEntry).length ≤ 9 ∧
      png_convert_to_rgba ⟨⟨1, 1, 8, 3, 0, 0, 0⟩, some [⟨1, 2, 3⟩], none, [9]⟩ =
        some [0, 0, 0, 255] :=
  ⟨by decide, c8_out_of_range_index_renders_default [⟨1, 2, 3⟩] 9 (by decide)⟩

/-- C9: if the colour type is PALETTE but the palette pointer is `NULL`
(and the dimensions are positive, as every header accepted by
`png_parse_ihdr` guarantees), `png_convert_to_rgba` fails — returning
0 with `*output = NULL`, which the model's `none` captures — while
`png_read_file` itself accepts a PALETTE-type stream containing no PLTE
chunk, so the missing mandatory palette is detected only at conversion
time. -/
theorem c9_missing_palette_fails_at_convert :
    (∀ img : PNG_Image, img.header.color_type = 3 → img.palette = none →
      0 < img.header.width → 0 < img.header.height →
      png_convert_to_rgba img = none) ∧
    (png_read_file 0 palNoPltePng).map PNG_Image.palette = some none := by
  constructor
  · intro img hct hpal hw hh
    obtain ⟨⟨w, h, bd, ct, cm, fm, il⟩, pal, tr, data⟩ := img
    dsimp only at hct hpal hw hh ⊢
    subst hct hpal
    unfold png_convert_to_rgba
    norm_num [convGeom]
    intro _
    cases h with
    | zero => omega
    | succ n =>
      cases w with
      | zero => omega
      | succ m => simp [convertRowsGo, convertRowGo, convertPixel]
  · decide

/-- Witness for C9: the concrete palette-less image produced by decoding
`palNoPltePng` fails to convert. -/
theorem c9_missing_palette_fails_at_convert_witness :
    png_convert_to_rgba ⟨⟨1, 1, 8, 3, 0, 0, 0⟩, none, none, [0, 0]⟩ = none :=
  c9_missing_palette_fails_at_convert.1 ⟨⟨1, 1, 8, 3, 0, 0, 0⟩, none, none, [0, 0]⟩
    rfl rfl (by norm_num) (by norm_num)

/-- C10: whenever `png_read_chunk` fails — premature end of stream on
any of its four reads, length above `MAX_CHUNK_LENGTH`, or CRC
mismatch — the chunk it hands back is the all-zero chunk (`data`
pointer `NULL`), never a partially filled one.  (The `malloc`-failure
path of the C code frees the payload and re-zeroes the chunk the same
way; allocation itself cannot fail in the model.) -/
theorem c10_read_chunk_failure_zeroed (file : List Nat)
    (h : (png_read_chunk file).1 = false) :
    (png_read_chunk file).2.1 = zeroChunk := by
  unfold png_read_chunk at h ⊢
  dsimp only at h ⊢
  split_ifs at h ⊢ <;> simp_all

/-- Witness for C10: the empty stream fails and yields the zero chunk. -/
theorem c10_read_chunk_failure_zeroed_witness :
    (png_read_chunk []).1 = false ∧ (png_read_chunk []).2.1 = zeroChunk :=
  ⟨by decide, c10_read_chunk_failure_zeroed [] (by decide)⟩

end PngEditor
